import Mathlib

/-!
Verification of the vjoy-feeder bridge (src/src/main.rs): a shallow
embedding of the report translator, the driver handshake sequence, the
control loop and the cancellation flag, with theorems settling the
specification's claims.
-/

set_option linter.unusedVariables false

namespace VJoyFeeder

/-- `const HALFMAXI16: i32 = i16::MAX as i32 / 2;` (main.rs line 10). -/
def HALFMAXI16 : Int := 32767 / 2

/-- `const REPORT_TRANSLATION: u8 = 1;` -/
def REPORT_TRANSLATION : Fin 256 := 1

/-- `const REPORT_ROTATION: u8 = 2;` -/
def REPORT_ROTATION : Fin 256 := 2

/-- `const REPORT_BUTTONS: u8 = 3;` -/
def REPORT_BUTTONS : Fin 256 := 3

/-- Two's-complement wrap-around of an integer into the signed 32-bit
range, the semantics of Rust release-mode `i32` arithmetic. -/
def wrap32 (x : Int) : Int :=
  (x + 2147483648) % 4294967296 - 2147483648

/-- `x` is representable as a signed 32-bit integer. -/
def inI32 (x : Int) : Prop :=
  -2147483648 ≤ x ∧ x ≤ 2147483647

instance (x : Int) : Decidable (inI32 x) := by
  unfold inI32; infer_instance

/-- `i16::from_ne_bytes([a, b])`: on every target this program supports
(the vJoy driver exists only for little-endian Windows x86/x64), native
byte order is little-endian, so `a` is the least-significant byte and
`b` the most-significant byte of a signed 16-bit integer. -/
def i16_from_ne_bytes (a b : Fin 256) : Int :=
  if (a : Nat) + 256 * (b : Nat) < 32768 then ((a : Nat) + 256 * (b : Nat) : Int)
  else ((a : Nat) + 256 * (b : Nat) : Int) - 65536

/-- The inline axis computation
`i16::from_ne_bytes(..) as i32 * 47 + HALFMAXI16` performed in `i32`
arithmetic: the widening to `i32` is exact, the multiplication and the
addition wrap on overflow (release semantics). -/
def scale_i32 (v : Int) : Int :=
  wrap32 (wrap32 (v * 47) + HALFMAXI16)

/-- The 7-byte HID report frame `read_buffer: [u8; 7]` (main.rs line 218). -/
structure RawReport where
  b0 : Fin 256
  b1 : Fin 256
  b2 : Fin 256
  b3 : Fin 256
  b4 : Fin 256
  b5 : Fin 256
  b6 : Fin 256
deriving DecidableEq, Repr

/-- The `JoystickPosition` record written to the driver (main.rs lines
220-248): `bDevice` is a `BYTE`, the `w*`/`l*` fields are `LONG` (i32)
and the `bHats*` fields are `DWORD` (u32). -/
structure JoystickPosition where
  bDevice : Fin 256
  wThrottle : Int
  wRudder : Int
  wAileron : Int
  wAxisX : Int
  wAxisY : Int
  wAxisZ : Int
  wAxisXRot : Int
  wAxisYRot : Int
  wAxisZRot : Int
  wSlider : Int
  wDial : Int
  wWheel : Int
  wAxisVX : Int
  wAxisVY : Int
  wAxisVZ : Int
  wAxisVBRX : Int
  wAxisVBRY : Int
  wAxisVBRZ : Int
  lButtons : Int
  bHats : Nat
  bHatsEx1 : Nat
  bHatsEx2 : Nat
  bHatsEx3 : Nat
  lButtonsEx1 : Int
  lButtonsEx2 : Int
  lButtonsEx3 : Int

/-- The zero-initialized `write_buffer` built in `main` (lines 220-248),
with `bDevice := vjoy_id as u8`. -/
def initWriteBuffer (vjoy_id : Fin 256) : JoystickPosition where
  bDevice := vjoy_id
  wThrottle := 0
  wRudder := 0
  wAileron := 0
  wAxisX := 0
  wAxisY := 0
  wAxisZ := 0
  wAxisXRot := 0
  wAxisYRot := 0
  wAxisZRot := 0
  wSlider := 0
  wDial := 0
  wWheel := 0
  wAxisVX := 0
  wAxisVY := 0
  wAxisVZ := 0
  wAxisVBRX := 0
  wAxisVBRY := 0
  wAxisVBRZ := 0
  lButtons := 0
  bHats := 0
  bHatsEx1 := 0
  bHatsEx2 := 0
  bHatsEx3 := 0
  lButtonsEx1 := 0
  lButtonsEx2 := 0
  lButtonsEx3 := 0

/-- The body of the `match read_buffer[0]` statement (main.rs lines
255-278): dispatch on the discriminant byte and mutate the selected
fields of `write_buffer`; every other discriminant does nothing. -/
def translate (r : RawReport) (j : JoystickPosition) : JoystickPosition :=
  if r.b0 = REPORT_ROTATION then
    { j with
      wAxisXRot := scale_i32 (i16_from_ne_bytes r.b1 r.b2)
      wAxisYRot := scale_i32 (i16_from_ne_bytes r.b5 r.b6)
      wAxisZRot := scale_i32 (i16_from_ne_bytes r.b3 r.b4) }
  else if r.b0 = REPORT_TRANSLATION then
    { j with
      wAxisX := scale_i32 (i16_from_ne_bytes r.b1 r.b2)
      wAxisY := scale_i32 (i16_from_ne_bytes r.b5 r.b6)
      wAxisZ := scale_i32 (i16_from_ne_bytes r.b3 r.b4) }
  else if r.b0 = REPORT_BUTTONS then
    { j with lButtons := ((r.b1 : Nat) : Int) }
  else
    j

/-- One pass of the `while running` loop body per report (main.rs lines
252-281): translate the report into the state, then push the full state
snapshot via `update_vjd`.  Returns the final state and the list of
snapshots pushed to the driver, in order. -/
def runVJoyLoop : List RawReport → JoystickPosition →
    JoystickPosition × List JoystickPosition
  | [], j => (j, [])
  | r :: rs, j =>
    let t := translate r j
    let rest := runVJoyLoop rs t
    (rest.1, t :: rest.2)

/-- Axis identifiers queried during the capability check
(`rusty_vjoy::HidUsage`, the six usages named in `check_vjoy_axis`). -/
inductive HidUsage
  | X
  | Y
  | Z
  | RX
  | RY
  | RZ
deriving DecidableEq, Repr

/-- `rusty_vjoy::VJDStat`, the device ownership states matched in
`check_vjoy_status` (main.rs lines 84-113). -/
inductive VJDStat
  | VjdStatOwned
  | VjdStatFree
  | VjdStatBusy
  | VjdStatMissing
  | VjdStatUnknown
deriving DecidableEq, Repr

/-- The two `hidapi::HidError` variants the handshake functions return. -/
inductive HidError
  | InitializationError
  | OpenHidDeviceError
deriving DecidableEq, Repr

/-- The virtual-joystick collaborator surface consumed by the handshake:
one field per `rusty_vjoy` query the checks call. -/
structure VJoyEnv where
  vjoy_enabled : Bool
  driver_match : Bool
  get_vjd_axis_exist : Nat → HidUsage → Bool
  get_vjd_button_number : Nat → Int
  get_vjd_status : Nat → VJDStat

/-- `check_vjoy_enabled` (main.rs lines 26-42): `Ok` iff the driver
reports itself enabled. -/
def check_vjoy_enabled (env : VJoyEnv) : Except HidError Unit :=
  if env.vjoy_enabled then Except.ok () else Except.error HidError.InitializationError

/-- `check_vjoy_versions` (main.rs lines 44-58): `Ok` iff the DLL and
driver versions match. -/
def check_vjoy_versions (env : VJoyEnv) : Except HidError Unit :=
  if env.driver_match then Except.ok () else Except.error HidError.InitializationError

/-- `check_vjoy_axis` (main.rs lines 60-82): `Ok` iff all six axes exist
and the button count equals 2. -/
def check_vjoy_axis (env : VJoyEnv) (id : Nat) : Except HidError Unit :=
  let has_x := env.get_vjd_axis_exist id HidUsage.X
  let has_y := env.get_vjd_axis_exist id HidUsage.Y
  let has_z := env.get_vjd_axis_exist id HidUsage.Z
  let has_rx := env.get_vjd_axis_exist id HidUsage.RX
  let has_ry := env.get_vjd_axis_exist id HidUsage.RY
  let has_rz := env.get_vjd_axis_exist id HidUsage.RZ
  let buttons := env.get_vjd_button_number id
  if has_x && has_y && has_z && has_rx && has_ry && has_rz && (buttons == 2) then
    Except.ok ()
  else
    Except.error HidError.OpenHidDeviceError

/-- `check_vjoy_status` (main.rs lines 84-113): `Ok` iff the device is
owned by this feeder or free. -/
def check_vjoy_status (env : VJoyEnv) (id : Nat) : Except HidError Unit :=
  match env.get_vjd_status id with
  | VJDStat.VjdStatOwned => Except.ok ()
  | VJDStat.VjdStatFree => Except.ok ()
  | VJDStat.VjdStatBusy => Except.error HidError.OpenHidDeviceError
  | VJDStat.VjdStatMissing => Except.error HidError.OpenHidDeviceError
  | VJDStat.VjdStatUnknown => Except.error HidError.OpenHidDeviceError

/-- Rust's `Result::is_err` as used on the check results in `main`. -/
def is_err : Except HidError Unit → Bool
  | Except.error _ => true
  | Except.ok _ => false

/-- Names of the four startup checks, used to record execution traces. -/
inductive VCheck
  | enabled
  | versions
  | status
  | axis
deriving DecidableEq, Repr

/-- The startup handshake exactly as `main` performs it (main.rs lines
155-173): `check_vjoy_enabled`, then `check_vjoy_versions`, then
`check_vjoy_status`, then `check_vjoy_axis`, returning early on the
first failing check.  Result: the list of checks that executed, in
order, and whether the handshake succeeded. -/
def mainHandshake (env : VJoyEnv) (id : Nat) : List VCheck × Bool :=
  if is_err (check_vjoy_enabled env) then ([VCheck.enabled], false)
  else if is_err (check_vjoy_versions env) then ([VCheck.enabled, VCheck.versions], false)
  else if is_err (check_vjoy_status env id) then
    ([VCheck.enabled, VCheck.versions, VCheck.status], false)
  else if is_err (check_vjoy_axis env id) then
    ([VCheck.enabled, VCheck.versions, VCheck.status, VCheck.axis], false)
  else ([VCheck.enabled, VCheck.versions, VCheck.status, VCheck.axis], true)

/-- Modelled from the spec: the handshake order the specification
asserts — enabled, versions, device-capability (axis), then ownership
status — with the same short-circuit behaviour.  Written only to be
compared against `mainHandshake`, which embeds the real code. -/
def claimedHandshake (env : VJoyEnv) (id : Nat) : List VCheck × Bool :=
  if is_err (check_vjoy_enabled env) then ([VCheck.enabled], false)
  else if is_err (check_vjoy_versions env) then ([VCheck.enabled, VCheck.versions], false)
  else if is_err (check_vjoy_axis env id) then
    ([VCheck.enabled, VCheck.versions, VCheck.axis], false)
  else if is_err (check_vjoy_status env id) then
    ([VCheck.enabled, VCheck.versions, VCheck.axis, VCheck.status], false)
  else ([VCheck.enabled, VCheck.versions, VCheck.axis, VCheck.status], true)

/-- An environment whose driver is enabled, version-matched and fully
capable, but whose device is owned by another feeder. -/
def busyEnv : VJoyEnv where
  vjoy_enabled := true
  driver_match := true
  get_vjd_axis_exist := fun _ _ => true
  get_vjd_button_number := fun _ => 2
  get_vjd_status := fun _ => VJDStat.VjdStatBusy

/-- An environment whose driver reports itself disabled. -/
def disabledEnv : VJoyEnv where
  vjoy_enabled := false
  driver_match := true
  get_vjd_axis_exist := fun _ _ => true
  get_vjd_button_number := fun _ => 2
  get_vjd_status := fun _ => VJDStat.VjdStatFree

/-- The device id, the driver-specific auxiliary fields and the fields
this feeder never writes are identical in `j` and `t`: everything except
the six axes and `lButtons`. -/
def auxUnchanged (j t : JoystickPosition) : Prop :=
  t.bDevice = j.bDevice ∧ t.wThrottle = j.wThrottle ∧ t.wRudder = j.wRudder ∧
  t.wAileron = j.wAileron ∧ t.wSlider = j.wSlider ∧ t.wDial = j.wDial ∧
  t.wWheel = j.wWheel ∧ t.wAxisVX = j.wAxisVX ∧ t.wAxisVY = j.wAxisVY ∧
  t.wAxisVZ = j.wAxisVZ ∧ t.wAxisVBRX = j.wAxisVBRX ∧ t.wAxisVBRY = j.wAxisVBRY ∧
  t.wAxisVBRZ = j.wAxisVBRZ ∧ t.bHats = j.bHats ∧ t.bHatsEx1 = j.bHatsEx1 ∧
  t.bHatsEx2 = j.bHatsEx2 ∧ t.bHatsEx3 = j.bHatsEx3 ∧
  t.lButtonsEx1 = j.lButtonsEx1 ∧ t.lButtonsEx2 = j.lButtonsEx2 ∧
  t.lButtonsEx3 = j.lButtonsEx3

/-- The three translation axes are identical in `j` and `t`. -/
def transAxesUnchanged (j t : JoystickPosition) : Prop :=
  t.wAxisX = j.wAxisX ∧ t.wAxisY = j.wAxisY ∧ t.wAxisZ = j.wAxisZ

/-- The three rotation axes are identical in `j` and `t`. -/
def rotAxesUnchanged (j t : JoystickPosition) : Prop :=
  t.wAxisXRot = j.wAxisXRot ∧ t.wAxisYRot = j.wAxisYRot ∧ t.wAxisZRot = j.wAxisZRot

/-- The device id and every field the feeder never writes still hold
their zero-initialized values (device id 1). -/
def auxZero (t : JoystickPosition) : Prop :=
  t.bDevice = 1 ∧ t.wThrottle = 0 ∧ t.wRudder = 0 ∧ t.wAileron = 0 ∧
  t.wSlider = 0 ∧ t.wDial = 0 ∧ t.wWheel = 0 ∧ t.wAxisVX = 0 ∧
  t.wAxisVY = 0 ∧ t.wAxisVZ = 0 ∧ t.wAxisVBRX = 0 ∧ t.wAxisVBRY = 0 ∧
  t.wAxisVBRZ = 0 ∧ t.bHats = 0 ∧ t.bHatsEx1 = 0 ∧ t.bHatsEx2 = 0 ∧
  t.bHatsEx3 = 0 ∧ t.lButtonsEx1 = 0 ∧ t.lButtonsEx2 = 0 ∧ t.lButtonsEx3 = 0

/-- State shared between the control loop and the interrupt handler:
the cancellation flag `running` (main.rs line 203) and the joystick
state `write_buffer` owned by the loop. -/
structure RunState where
  running : Bool
  write_buffer : JoystickPosition

/-- The state right before the loop starts: `running` initialized to
`true`, `write_buffer` zero-initialized for device 1. -/
def initRunState : RunState where
  running := true
  write_buffer := initWriteBuffer 1

/-- The atomic steps of the running program: the Ctrl-C handler stores
`false` into the flag (main.rs line 208), and the loop body runs one
iteration when the loaded flag is `true` (main.rs lines 252-281).  No
step of the program ever stores `true`. -/
inductive FeederStep : RunState → RunState → Prop
  | ctrlc (s : RunState) : FeederStep s { s with running := false }
  | loop_iter (s : RunState) (r : RawReport) (h : s.running = true) :
      FeederStep s { s with write_buffer := translate r s.write_buffer }

/-- First report of the end-to-end scenario: `[2,0,0,0x10,0,0x20,0]`. -/
def reportA : RawReport := ⟨2, 0, 0, 0x10, 0, 0x20, 0⟩

/-- Second report of the end-to-end scenario: `[1,0,1,0,0,0,0]`. -/
def reportB : RawReport := ⟨1, 0, 1, 0, 0, 0, 0⟩

/-- Third report of the end-to-end scenario: `[3,3,0,0,0,0,0]`. -/
def reportC : RawReport := ⟨3, 3, 0, 0, 0, 0, 0⟩

/-- Final state after feeding the scenario's three reports into the
zero-initialized state. -/
def scenarioFinal : JoystickPosition :=
  (runVJoyLoop [reportA, reportB, reportC] (initWriteBuffer 1)).1

end VJoyFeeder

namespace VJoyFeeder

example : HALFMAXI16 = 16383 := by decide

example : scale_i32 256 = 28415 := by decide

example : i16_from_ne_bytes 0 1 = 256 := by decide

example : i16_from_ne_bytes 255 255 = -1 := by decide

/-- C1. For every signed 16-bit input `v`, the axis scaling computation
`v as i32 * 47 + HALFMAXI16` returns exactly `v * 47 + 16383`, and
neither the multiplication nor the addition overflows a signed 32-bit
integer anywhere on the i16 input domain. -/
theorem C1_scale_exact_no_overflow (v : Int)
    (hlo : -32768 ≤ v) (hhi : v ≤ 32767) :
    scale_i32 v = v * 47 + 16383 ∧ inI32 (v * 47) ∧ inI32 (v * 47 + 16383) := by
  unfold scale_i32 wrap32 inI32 HALFMAXI16
  omega

/-- C1 witness: the theorem applied at the extreme input `v = -32768`. -/
theorem C1_scale_exact_no_overflow_witness :
    scale_i32 (-32768) = -32768 * 47 + 16383 ∧
      inI32 (-32768 * 47) ∧ inI32 (-32768 * 47 + 16383) :=
  C1_scale_exact_no_overflow (-32768) (by decide) (by decide)

theorem i16_from_ne_bytes_eq (lo hi : Fin 256) :
    i16_from_ne_bytes lo hi = ((lo : Int) + 256 * (hi : Int) + 32768) % 65536 - 32768 := by
  have h1 := lo.isLt
  have h2 := hi.isLt
  unfold i16_from_ne_bytes
  split <;> omega

theorem translate_noop (r : RawReport) (j : JoystickPosition)
    (h1 : r.b0 ≠ REPORT_ROTATION) (h2 : r.b0 ≠ REPORT_TRANSLATION)
    (h3 : r.b0 ≠ REPORT_BUTTONS) : translate r j = j := by
  unfold translate
  rw [if_neg h1, if_neg h2, if_neg h3]

theorem translate_auxUnchanged (r : RawReport) (j : JoystickPosition) :
    auxUnchanged j (translate r j) := by
  unfold translate auxUnchanged
  split_ifs <;>
    exact ⟨rfl, rfl, rfl, rfl, rfl, rfl, rfl, rfl, rfl, rfl, rfl, rfl, rfl, rfl,
      rfl, rfl, rfl, rfl, rfl, rfl⟩

theorem auxZero_of_unchanged {j t : JoystickPosition}
    (hz : auxZero j) (hu : auxUnchanged j t) : auxZero t := by
  unfold auxZero auxUnchanged at *
  simp_all

theorem runVJoyLoop_auxZero :
    ∀ (rs : List RawReport) (j : JoystickPosition),
      auxZero j → auxZero (runVJoyLoop rs j).1
  | [], _, h => h
  | r :: rs, j, h =>
    runVJoyLoop_auxZero rs (translate r j)
      (auxZero_of_unchanged h (translate_auxUnchanged r j))

theorem runVJoyLoop_length :
    ∀ (rs : List RawReport) (j : JoystickPosition),
      ((runVJoyLoop rs j).2).length = rs.length
  | [], _ => rfl
  | r :: rs, j => by
    simp [runVJoyLoop, runVJoyLoop_length rs (translate r j)]

/-- C2. In a translation report (discriminant 1) the sub-field at byte
offset 1 feeds axis X, the sub-field at offset 5 feeds axis Y and the
sub-field at offset 3 feeds axis Z; a rotation report (discriminant 2)
uses the same offsets for XRot, YRot and ZRot. -/
theorem C2_axis_offset_mapping (b1 b2 b3 b4 b5 b6 : Fin 256) (j : JoystickPosition) :
    (translate ⟨1, b1, b2, b3, b4, b5, b6⟩ j).wAxisX = scale_i32 (i16_from_ne_bytes b1 b2) ∧
    (translate ⟨1, b1, b2, b3, b4, b5, b6⟩ j).wAxisY = scale_i32 (i16_from_ne_bytes b5 b6) ∧
    (translate ⟨1, b1, b2, b3, b4, b5, b6⟩ j).wAxisZ = scale_i32 (i16_from_ne_bytes b3 b4) ∧
    (translate ⟨2, b1, b2, b3, b4, b5, b6⟩ j).wAxisXRot = scale_i32 (i16_from_ne_bytes b1 b2) ∧
    (translate ⟨2, b1, b2, b3, b4, b5, b6⟩ j).wAxisYRot = scale_i32 (i16_from_ne_bytes b5 b6) ∧
    (translate ⟨2, b1, b2, b3, b4, b5, b6⟩ j).wAxisZRot = scale_i32 (i16_from_ne_bytes b3 b4) :=
  ⟨rfl, rfl, rfl, rfl, rfl, rfl⟩

/-- C5. Every two-byte axis sub-field of a motion report is decoded as
a little-endian signed 16-bit integer: the byte at the lower offset is
the least-significant byte, so the decoded value is
`(lo + 256 * hi + 2^15) mod 2^16 - 2^15`. -/
theorem C5_little_endian_decode (b1 b2 b3 b4 b5 b6 : Fin 256) (j : JoystickPosition) :
    (translate ⟨1, b1, b2, b3, b4, b5, b6⟩ j).wAxisX =
      scale_i32 (((b1 : Int) + 256 * (b2 : Int) + 32768) % 65536 - 32768) ∧
    (translate ⟨1, b1, b2, b3, b4, b5, b6⟩ j).wAxisY =
      scale_i32 (((b5 : Int) + 256 * (b6 : Int) + 32768) % 65536 - 32768) ∧
    (translate ⟨1, b1, b2, b3, b4, b5, b6⟩ j).wAxisZ =
      scale_i32 (((b3 : Int) + 256 * (b4 : Int) + 32768) % 65536 - 32768) ∧
    (translate ⟨2, b1, b2, b3, b4, b5, b6⟩ j).wAxisXRot =
      scale_i32 (((b1 : Int) + 256 * (b2 : Int) + 32768) % 65536 - 32768) ∧
    (translate ⟨2, b1, b2, b3, b4, b5, b6⟩ j).wAxisYRot =
      scale_i32 (((b5 : Int) + 256 * (b6 : Int) + 32768) % 65536 - 32768) ∧
    (translate ⟨2, b1, b2, b3, b4, b5, b6⟩ j).wAxisZRot =
      scale_i32 (((b3 : Int) + 256 * (b4 : Int) + 32768) % 65536 - 32768) := by
  refine ⟨?_, ?_, ?_, ?_, ?_, ?_⟩ <;> rw [← i16_from_ne_bytes_eq] <;> rfl

/-- C8. A button report (discriminant 3) stores byte 1, read as an
integer, into the button field; in particular reports `[3,0]`, `[3,1]`,
`[3,2]`, `[3,3]` yield button values 0, 1, 2, 3. -/
theorem C8_button_report (b1 b2 b3 b4 b5 b6 : Fin 256) (j : JoystickPosition) :
    (translate ⟨3, b1, b2, b3, b4, b5, b6⟩ j).lButtons = ((b1 : Nat) : Int) ∧
    (translate ⟨3, 0, 0, 0, 0, 0, 0⟩ (initWriteBuffer 1)).lButtons = 0 ∧
    (translate ⟨3, 1, 0, 0, 0, 0, 0⟩ (initWriteBuffer 1)).lButtons = 1 ∧
    (translate ⟨3, 2, 0, 0, 0, 0, 0⟩ (initWriteBuffer 1)).lButtons = 2 ∧
    (translate ⟨3, 3, 0, 0, 0, 0, 0⟩ (initWriteBuffer 1)).lButtons = 3 :=
  ⟨rfl, by decide, by decide, by decide, by decide⟩

/-- C4. The translator mutates only the fields its discriminant selects:
reports never touch the device id or the auxiliary fields; discriminant
1 leaves the rotation axes and buttons alone; discriminant 2 leaves the
translation axes and buttons alone; discriminant 3 leaves all six axes
alone; any other discriminant leaves the whole state unchanged; and
after any report sequence from the zero-initialized state the device id
is still 1 and every auxiliary field is still 0. -/
theorem C4_frame_effect :
    (∀ (r : RawReport) (j : JoystickPosition), auxUnchanged j (translate r j)) ∧
    (∀ (b1 b2 b3 b4 b5 b6 : Fin 256) (j : JoystickPosition),
      rotAxesUnchanged j (translate ⟨1, b1, b2, b3, b4, b5, b6⟩ j) ∧
      (translate ⟨1, b1, b2, b3, b4, b5, b6⟩ j).lButtons = j.lButtons) ∧
    (∀ (b1 b2 b3 b4 b5 b6 : Fin 256) (j : JoystickPosition),
      transAxesUnchanged j (translate ⟨2, b1, b2, b3, b4, b5, b6⟩ j) ∧
      (translate ⟨2, b1, b2, b3, b4, b5, b6⟩ j).lButtons = j.lButtons) ∧
    (∀ (b1 b2 b3 b4 b5 b6 : Fin 256) (j : JoystickPosition),
      transAxesUnchanged j (translate ⟨3, b1, b2, b3, b4, b5, b6⟩ j) ∧
      rotAxesUnchanged j (translate ⟨3, b1, b2, b3, b4, b5, b6⟩ j)) ∧
    (∀ (r : RawReport) (j : JoystickPosition),
      r.b0 ≠ 1 → r.b0 ≠ 2 → r.b0 ≠ 3 → translate r j = j) ∧
    (∀ rs : List RawReport, auxZero (runVJoyLoop rs (initWriteBuffer 1)).1) := by
  refine ⟨translate_auxUnchanged, ?_, ?_, ?_, ?_, ?_⟩
  · exact fun b1 b2 b3 b4 b5 b6 j => ⟨⟨rfl, rfl, rfl⟩, rfl⟩
  · exact fun b1 b2 b3 b4 b5 b6 j => ⟨⟨rfl, rfl, rfl⟩, rfl⟩
  · exact fun b1 b2 b3 b4 b5 b6 j => ⟨⟨rfl, rfl, rfl⟩, ⟨rfl, rfl, rfl⟩⟩
  · exact fun r j h1 h2 h3 => translate_noop r j h2 h1 h3
  · exact fun rs => runVJoyLoop_auxZero rs (initWriteBuffer 1)
      ⟨rfl, rfl, rfl, rfl, rfl, rfl, rfl, rfl, rfl, rfl, rfl, rfl, rfl, rfl,
        rfl, rfl, rfl, rfl, rfl, rfl⟩

/-- C4 witness: a report with the unrecognized discriminant 4 leaves the
zero-initialized state untouched. -/
theorem C4_frame_effect_witness :
    translate ⟨4, 5, 6, 7, 8, 9, 10⟩ (initWriteBuffer 1) = initWriteBuffer 1 :=
  C4_frame_effect.2.2.2.2.1 ⟨4, 5, 6, 7, 8, 9, 10⟩ (initWriteBuffer 1)
    (by decide) (by decide) (by decide)

/-- C3 counterexample: in an environment whose driver is enabled,
version-matched and fully capable but whose device is busy, `main`
executes the ownership-status check third and never runs the capability
check, while the claimed order would run the capability check before
status; so the claim's check order does not hold of the code. -/
theorem C3_counterexample :
    (mainHandshake busyEnv 1).1 = [VCheck.enabled, VCheck.versions, VCheck.status] ∧
    VCheck.axis ∉ (mainHandshake busyEnv 1).1 ∧
    (claimedHandshake busyEnv 1).1 =
      [VCheck.enabled, VCheck.versions, VCheck.axis, VCheck.status] ∧
    mainHandshake busyEnv 1 ≠ claimedHandshake busyEnv 1 := by
  decide

/-- C3 amended: the startup handshake runs the four checks in the strict
order driver-enabled, version-compatibility, ownership status, then
device-capability (six axes present and button count = 2), and it
short-circuits on the first failure; in particular if the driver-enabled
check fails none of the other checks executes. -/
theorem C3_handshake_order (env : VJoyEnv) (id : Nat) :
    (is_err (check_vjoy_enabled env) = true →
      mainHandshake env id = ([VCheck.enabled], false)) ∧
    (is_err (check_vjoy_enabled env) = false →
      is_err (check_vjoy_versions env) = true →
      mainHandshake env id = ([VCheck.enabled, VCheck.versions], false)) ∧
    (is_err (check_vjoy_enabled env) = false →
      is_err (check_vjoy_versions env) = false →
      is_err (check_vjoy_status env id) = true →
      mainHandshake env id = ([VCheck.enabled, VCheck.versions, VCheck.status], false)) ∧
    (is_err (check_vjoy_enabled env) = false →
      is_err (check_vjoy_versions env) = false →
      is_err (check_vjoy_status env id) = false →
      mainHandshake env id =
        ([VCheck.enabled, VCheck.versions, VCheck.status, VCheck.axis],
          !is_err (check_vjoy_axis env id))) ∧
    (is_err (check_vjoy_axis env id) = false ↔
      (env.get_vjd_axis_exist id HidUsage.X = true ∧
        env.get_vjd_axis_exist id HidUsage.Y = true ∧
        env.get_vjd_axis_exist id HidUsage.Z = true ∧
        env.get_vjd_axis_exist id HidUsage.RX = true ∧
        env.get_vjd_axis_exist id HidUsage.RY = true ∧
        env.get_vjd_axis_exist id HidUsage.RZ = true ∧
        env.get_vjd_button_number id = 2)) := by
  refine ⟨?_, ?_, ?_, ?_, ?_⟩
  · intro h1
    simp [mainHandshake, h1]
  · intro h1 h2
    simp [mainHandshake, h1, h2]
  · intro h1 h2 h3
    simp [mainHandshake, h1, h2, h3]
  · intro h1 h2 h3
    cases hax : is_err (check_vjoy_axis env id) <;>
      simp [mainHandshake, h1, h2, h3, hax]
  · unfold check_vjoy_axis
    dsimp only
    split
    case isTrue h =>
      simp only [Bool.and_eq_true, beq_iff_eq] at h
      simp [is_err, h]
    case isFalse h =>
      simp only [is_err]
      simp only [Bool.and_eq_true, beq_iff_eq] at h
      tauto

/-- C3 witness: the amended order theorem applied to the busy-device
environment, where the first two checks pass and the status check is the
one that fails. -/
theorem C3_handshake_order_witness :
    mainHandshake busyEnv 1 = ([VCheck.enabled, VCheck.versions, VCheck.status], false) :=
  (C3_handshake_order busyEnv 1).2.2.1 (by decide) (by decide) (by decide)

/-- C6 counterexample: running the scenario's three reports from the
zero-initialized state gives axisYRot = 32·47+16383 = 17887 (not
0x2000·47+16383 = 401407) and axisZRot = 16·47+16383 = 17135 (not
16383), so the claimed final state is wrong. -/
theorem C6_counterexample :
    scenarioFinal.wAxisYRot = 17887 ∧ scenarioFinal.wAxisZRot = 17135 ∧
    ¬(scenarioFinal.wAxisZRot = 16383 ∧ scenarioFinal.wAxisXRot = 16383 ∧
      scenarioFinal.wAxisYRot = 401407 ∧ scenarioFinal.wAxisX = 28415 ∧
      scenarioFinal.lButtons = 3) := by
  decide

/-- C6 amended: the scenario's final state is axisX = 256·47+16383 =
28415, axisY = axisZ = 16383, axisXRot = 16383, axisYRot = 0x20·47+16383
= 17887, axisZRot = 0x10·47+16383 = 17135 and buttons = 3. -/
theorem C6_scenario :
    scenarioFinal.wAxisX = 28415 ∧ scenarioFinal.wAxisY = 16383 ∧
    scenarioFinal.wAxisZ = 16383 ∧ scenarioFinal.wAxisXRot = 16383 ∧
    scenarioFinal.wAxisYRot = 17887 ∧ scenarioFinal.wAxisZRot = 17135 ∧
    scenarioFinal.lButtons = 3 := by
  decide

/-- C9. The cancellation flag starts `true`; no program step ever sets
it back to `true` (the Ctrl-C handler only stores `false`); and along
any execution, once the flag is `false` it stays `false` forever. -/
theorem C9_cancellation_terminal :
    initRunState.running = true ∧
    (∀ s t : RunState, FeederStep s t → t.running = true → s.running = true) ∧
    (∀ s t : RunState, Relation.ReflTransGen FeederStep s t →
      s.running = false → t.running = false) := by
  refine ⟨rfl, ?_, ?_⟩
  · intro s t hst
    cases hst with
    | ctrlc => intro h; exact absurd h (by simp)
    | loop_iter r h => intro _; exact h
  · intro s t hst hs
    induction hst with
    | refl => exact hs
    | tail hab hbc ih =>
      cases hbc with
      | ctrlc => rfl
      | loop_iter r h => exact absurd ih (by simp [h])

/-- C9 witness: a Ctrl-C step taken from an already-cancelled state
leaves the flag `false`. -/
theorem C9_cancellation_terminal_witness :
    ({ running := false, write_buffer := initWriteBuffer 1 } : RunState).running = false :=
  C9_cancellation_terminal.2.2
    { running := false, write_buffer := initWriteBuffer 1 }
    { running := false, write_buffer := initWriteBuffer 1 }
    (Relation.ReflTransGen.single
      (FeederStep.ctrlc { running := false, write_buffer := initWriteBuffer 1 }))
    rfl

/-- C10. Every loop iteration pushes exactly one snapshot to the driver:
the snapshot list has one entry per report, each iteration pushes the
state right after translation, and for an unrecognized discriminant the
unchanged previous state is re-pushed. -/
theorem C10_push_every_iteration :
    (∀ (rs : List RawReport) (j : JoystickPosition),
      ((runVJoyLoop rs j).2).length = rs.length) ∧
    (∀ (r : RawReport) (rs : List RawReport) (j : JoystickPosition),
      (runVJoyLoop (r :: rs) j).2 =
        translate r j :: (runVJoyLoop rs (translate r j)).2) ∧
    (∀ (r : RawReport) (rs : List RawReport) (j : JoystickPosition),
      r.b0 ≠ 1 → r.b0 ≠ 2 → r.b0 ≠ 3 →
      (runVJoyLoop (r :: rs) j).2 = j :: (runVJoyLoop rs j).2) := by
  refine ⟨runVJoyLoop_length, fun r rs j => rfl, ?_⟩
  intro r rs j h1 h2 h3
  rw [show (runVJoyLoop (r :: rs) j).2 =
      translate r j :: (runVJoyLoop rs (translate r j)).2 from rfl,
    translate_noop r j h2 h1 h3]

/-- C10 witness: a single-report run with the unrecognized discriminant
5 re-pushes the zero-initialized snapshot. -/
theorem C10_push_every_iteration_witness :
    (runVJoyLoop [⟨5, 0, 0, 0, 0, 0, 0⟩] (initWriteBuffer 1)).2 =
      initWriteBuffer 1 :: (runVJoyLoop [] (initWriteBuffer 1)).2 :=
  C10_push_every_iteration.2.2 ⟨5, 0, 0, 0, 0, 0, 0⟩ [] (initWriteBuffer 1)
    (by decide) (by decide) (by decide)

end VJoyFeeder
